import Mathlib

/-
Verification of the review scheduler and vocabulary admission control of the
readarabicbackend service (src/app.py), modelled as a shallow embedding.
Python floats are modelled as exact rationals; SQL rows as Lean structures;
nullable columns as Option fields. Python int() applied to the positive
interval value is the floor function.
-/

namespace ReadArabic

/-- Review statistics of a row of user_vocabulary as fetched by the review
endpoint (app.py lines 708 to 712); every column may be NULL. -/
structure StoredStats where
  easiness_factor : Option ℚ
  review_count : Option ℕ
  correct_count : Option ℕ
  incorrect_count : Option ℕ
deriving DecidableEq

/-- Review statistics after the normalization at app.py lines 723 to 727. -/
structure Stats where
  easiness : ℚ
  review_count : ℕ
  correct_count : ℕ
  incorrect_count : ℕ
deriving DecidableEq

/-- Normalization at app.py lines 723 to 727: an easiness_factor that is NULL
or 0 is falsy in Python, so it falls back to 2.5; NULL counts fall back to 0
via the `or 0` idiom. -/
def normalizeStats (v : StoredStats) : Stats where
  easiness :=
    match v.easiness_factor with
    | none => 2.5
    | some e => if e = 0 then 2.5 else e
  review_count := v.review_count.getD 0
  correct_count := v.correct_count.getD 0
  incorrect_count := v.incorrect_count.getD 0

/-- One step of the spaced repetition algorithm at app.py lines 729 to 748,
returning the updated statistics and interval_days. On a correct answer the
easiness factor is raised by 0.1 (clamped below at 1.3) before the interval
is computed, and the interval ladder reads the pre-increment review_count;
on an incorrect answer the easiness factor drops by 0.2 (clamped at 1.3),
the streak resets to 0 and the interval is 1 day. -/
def scheduleStep (s : Stats) (correct : Bool) : Stats × ℤ :=
  if correct then
    let e := max 1.3 (s.easiness + 0.1)
    let interval : ℤ :=
      if s.review_count = 0 then 1
      else if s.review_count = 1 then 3
      else if s.review_count = 2 then 7
      else ⌊(7 : ℚ) * e ^ (s.review_count - 2)⌋
    (⟨e, s.review_count + 1, s.correct_count + 1, s.incorrect_count⟩, interval)
  else
    (⟨max 1.3 (s.easiness - 0.2), 0, s.correct_count, s.incorrect_count + 1⟩, 1)

/-- Reading of the correct flag from the request body at app.py line 696:
data.get with default False, so a missing field is treated as False. -/
def parseCorrect (body : Option Bool) : Bool := body.getD false

/-- The review endpoint update applied to a fetched row (app.py lines 695 to
748): read the correct flag with default False, normalize the stored
statistics, then run one scheduler step. -/
def reviewUpdate (v : StoredStats) (body : Option Bool) : Stats × ℤ :=
  scheduleStep (normalizeStats v) (parseCorrect body)

/-- Fold a sequence of review outcomes through the scheduler. -/
def applyOutcomes (s : Stats) (l : List Bool) : Stats :=
  l.foldl (fun t b => (scheduleStep t b).1) s

/-- The interval_days values produced by a sequence of review outcomes. -/
def reviewIntervals (s : Stats) : List Bool → List ℤ
  | [] => []
  | b :: l => (scheduleStep s b).2 :: reviewIntervals (scheduleStep s b).1 l

/-- A fresh vocabulary item: easiness 2.5, all counts 0 (spec section 3). -/
def freshStats : Stats := ⟨2.5, 0, 0, 0⟩

/-- A row of the user_vocabulary table as touched by the save endpoint
(app.py lines 469 to 478). -/
structure VocabRow where
  user_id : ℕ
  word : String
  translation : String
  book_id : ℤ
  page_number : ℤ
  volume_number : ℤ
  word_position : ℤ
  learned_at : ℤ
deriving DecidableEq

/-- The payload of a save request after JSON parsing (app.py lines 403 to
410); a missing user_id is 0 and missing strings are empty, matching the
falsy check at line 412. -/
structure SaveRequest where
  user_id : ℕ
  word : String
  translation : String
  book_id : ℤ
  page_number : ℤ
  volume_number : ℤ
  word_position : ℤ
deriving DecidableEq

/-- A row of the subscriptions table as read by the save endpoint and the
subscription status endpoint. -/
structure SubRow where
  user_id : ℕ
  status : String
  expires_at : ℤ
deriving DecidableEq

/-- The database state seen by the save endpoint. -/
structure DB where
  vocabulary : List VocabRow
  subscriptions : List SubRow
deriving DecidableEq

/-- The conflict key of the upsert at app.py line 473 and the existence
check at lines 448 to 451: user_id, word, book_id, page_number and
word_position. The volume_number column is not part of the key. -/
def sameWordKey (r : VocabRow) (q : SaveRequest) : Bool :=
  r.user_id == q.user_id && r.word == q.word && r.book_id == q.book_id &&
    r.page_number == q.page_number && r.word_position == q.word_position

/-- The row inserted when no conflict occurs (app.py lines 470 to 478);
learned_at is the insertion time. -/
def newRow (q : SaveRequest) (now : ℤ) : VocabRow :=
  ⟨q.user_id, q.word, q.translation, q.book_id, q.page_number, q.volume_number,
    q.word_position, now⟩

/-- The INSERT ... ON CONFLICT DO UPDATE at app.py lines 470 to 478: if a
row with the same conflict key exists it gets the new translation and
learned_at, otherwise a new row is appended. -/
def upsertVocabulary : List VocabRow → SaveRequest → ℤ → List VocabRow
  | [], q, now => [newRow q now]
  | r :: rest, q, now =>
    if sameWordKey r q then
      { r with translation := q.translation, learned_at := now } :: rest
    else
      r :: upsertVocabulary rest q now

/-- The subscription check of the save endpoint (app.py lines 428 to 434):
it counts only rows with status active. -/
def hasActiveSubscription (subs : List SubRow) (uid : ℕ) : Bool :=
  subs.any fun s => s.user_id == uid && s.status == "active"

/-- The qualifying-record test of the subscription status endpoint (app.py
lines 797 to 806): status active, or status cancelled with expires_at still
in the future. This is the premium notion of spec section 3. -/
def hasQualifyingSubscription (subs : List SubRow) (uid : ℕ) (now : ℤ) : Bool :=
  subs.any fun s =>
    s.user_id == uid &&
      (s.status == "active" || (s.status == "cancelled" && decide (now < s.expires_at)))

/-- The vocabulary count of the save endpoint (app.py lines 438 to 443):
COUNT of all rows of the user. -/
def countVocabulary (rows : List VocabRow) (uid : ℕ) : ℕ :=
  (rows.filter fun r => r.user_id == uid).length

/-- The existence check of the save endpoint (app.py lines 448 to 453). -/
def findExisting (rows : List VocabRow) (q : SaveRequest) : Option VocabRow :=
  rows.find? fun r => sameWordKey r q

/-- The outcome of a save request. -/
inductive SaveResult where
  | validationError
  | denied (vocab_count : ℕ)
  | saved
deriving DecidableEq

/-- The save endpoint (app.py lines 400 to 488): validate the payload, then
deny only when the user has no active subscription, already holds at least
5 rows, and no row exists at the requested word key; otherwise upsert. -/
def save_vocabulary (db : DB) (q : SaveRequest) (now : ℤ) : SaveResult × DB :=
  if q.user_id = 0 ∨ q.word = "" ∨ q.translation = "" then
    (SaveResult.validationError, db)
  else if hasActiveSubscription db.subscriptions q.user_id = false ∧
      5 ≤ countVocabulary db.vocabulary q.user_id ∧
      findExisting db.vocabulary q = none then
    (SaveResult.denied (countVocabulary db.vocabulary q.user_id), db)
  else
    (SaveResult.saved, { db with vocabulary := upsertVocabulary db.vocabulary q now })

/-- A row as selected by the due query (app.py lines 658 to 663). -/
structure DueRow where
  id : ℕ
  user_id : ℕ
  word : String
  translation : String
  book_id : ℤ
  page_number : ℤ
  volume_number : ℤ
  word_position : ℤ
  easiness_factor : Option ℚ
  next_review_date : ℤ
  review_count : Option ℕ
  correct_count : Option ℕ
  incorrect_count : Option ℕ
deriving DecidableEq

/-- The optional book filter of the due endpoint (app.py lines 646 and 666
to 668): the clause is added only when the parsed book_id is truthy, so an
absent parameter and the value 0 both mean no filter. -/
def bookFilterOk (f : Option ℤ) (r : DueRow) : Bool :=
  match f with
  | none => true
  | some b => if b = 0 then true else r.book_id == b

/-- The WHERE clause of the due query (app.py lines 658 to 668): same user,
next_review_date at most now, and the optional book filter. -/
def isDue (uid : ℕ) (now : ℤ) (f : Option ℤ) (r : DueRow) : Bool :=
  r.user_id == uid && decide (r.next_review_date ≤ now) && bookFilterOk f r

/-- The ascending next_review_date order of the due query (app.py line
670). -/
def dueOrder (a b : DueRow) : Prop :=
  a.next_review_date ≤ b.next_review_date

instance : DecidableRel dueOrder := fun a b =>
  inferInstanceAs (Decidable (a.next_review_date ≤ b.next_review_date))

instance : IsTotal DueRow dueOrder :=
  ⟨fun a b => le_total a.next_review_date b.next_review_date⟩

instance : IsTrans DueRow dueOrder :=
  ⟨fun _ _ _ h1 h2 => le_trans h1 h2⟩

/-- The due endpoint (app.py lines 642 to 681): filter the table by the
WHERE clause and order ascending by next_review_date. -/
def get_due_vocabulary (rows : List DueRow) (uid : ℕ) (f : Option ℤ) (now : ℤ) :
    List DueRow :=
  List.insertionSort dueOrder (rows.filter (isDue uid now f))

/-- Five distinct vocabulary rows of user 1, filling the free tier. -/
def fiveWords : List VocabRow :=
  [⟨1, "alif", "a", 1, 1, 1, 1, 0⟩, ⟨1, "ba", "b", 1, 1, 1, 2, 0⟩,
   ⟨1, "ta", "t", 1, 1, 1, 3, 0⟩, ⟨1, "tha", "th", 1, 1, 1, 4, 0⟩,
   ⟨1, "jim", "j", 1, 1, 1, 5, 0⟩]

/-- A database where user 1 has five words and a cancelled subscription
that expires at time 100, hence unexpired at time 50. -/
def cancelledDB : DB := ⟨fiveWords, [⟨1, "cancelled", 100⟩]⟩

/-- A database where user 1 has five words and an active subscription. -/
def activeDB : DB := ⟨fiveWords, [⟨1, "active", 100⟩]⟩

/-- A database where user 1 has five words and no subscription. -/
def freeDB : DB := ⟨fiveWords, []⟩

/-- A save request of user 1 for a sixth distinct word. -/
def sixthRequest : SaveRequest := ⟨1, "ha", "h", 1, 1, 1, 6⟩

/-- A stored row used for the composite key analysis. -/
def volRow : VocabRow := ⟨1, "kitab", "book", 2, 3, 1, 4, 10⟩

/-- A save request matching volRow on every identity component except
volume_number. -/
def volRequest : SaveRequest := ⟨1, "kitab", "livre", 2, 3, 2, 4⟩

/-- A save request matching volRow on the full identity, with a new
translation. -/
def resaveRequest : SaveRequest := ⟨1, "kitab", "nouveau", 2, 3, 1, 4⟩

end ReadArabic

namespace ReadArabic

/-- A helper bound: the easiness factor emitted by a single scheduler step is
at least 1.3, whatever the input statistics. -/
theorem scheduleStep_easiness_ge (s : Stats) (b : Bool) :
    (1.3 : ℚ) ≤ (scheduleStep s b).1.easiness := by
  cases b <;> simp [scheduleStep]

/-- A helper bound: folding outcomes preserves the easiness lower bound. -/
theorem applyOutcomes_easiness_ge (l : List Bool) (s : Stats)
    (h : (1.3 : ℚ) ≤ s.easiness) : (1.3 : ℚ) ≤ (applyOutcomes s l).easiness := by
  induction l generalizing s with
  | nil => simpa [applyOutcomes] using h
  | cons b l ih =>
      simpa [applyOutcomes] using ih ((scheduleStep s b).1) (scheduleStep_easiness_ge s b)

/-- C6: for every starting statistics record and every outcome the scheduler
produces an easiness factor of at least 1.3, and over any nonempty sequence
of outcomes the invariant easiness at least 1.3 holds of the result. -/
theorem easiness_invariant (s : Stats) (b : Bool) (l : List Bool) :
    (1.3 : ℚ) ≤ (scheduleStep s b).1.easiness ∧
    (1.3 : ℚ) ≤ (applyOutcomes s (b :: l)).easiness := by
  refine ⟨scheduleStep_easiness_ge s b, ?_⟩
  have h : applyOutcomes s (b :: l) = applyOutcomes ((scheduleStep s b).1) l := by
    simp [applyOutcomes]
  rw [h]
  exact applyOutcomes_easiness_ge l _ (scheduleStep_easiness_ge s b)

/-- C7: an incorrect outcome resets the streak to 0, returns an interval of
1 day, increments incorrect_count by one, keeps correct_count, and lowers
the easiness factor by 0.2 clamped at 1.3. -/
theorem incorrect_outcome_resets (s : Stats) :
    scheduleStep s false =
      (⟨max 1.3 (s.easiness - 0.2), 0, s.correct_count, s.incorrect_count + 1⟩, 1) := rfl

/-- C1: on a correct outcome with pre-increment review_count at least 3, the
interval is the floor of 7 times the updated easiness factor (raised by 0.1
and clamped at 1.3) to the power review_count minus 2, with review_count
read before its own increment. -/
theorem interval_formula_high_count (s : Stats) (h : 3 ≤ s.review_count) :
    (scheduleStep s true).2 =
      ⌊(7 : ℚ) * (max 1.3 (s.easiness + 0.1)) ^ (s.review_count - 2)⌋ := by
  have h0 : s.review_count ≠ 0 := by omega
  have h1 : s.review_count ≠ 1 := by omega
  have h2 : s.review_count ≠ 2 := by omega
  simp [scheduleStep, h0, h1, h2]

/-- Witness for C1 at easiness 2.5 and review_count 3. -/
theorem interval_formula_high_count_witness :
    3 ≤ (⟨2.5, 3, 0, 0⟩ : Stats).review_count ∧
    (scheduleStep ⟨2.5, 3, 0, 0⟩ true).2 =
      ⌊(7 : ℚ) * (max 1.3 ((2.5 : ℚ) + 0.1)) ^ ((3 : ℕ) - 2)⌋ :=
  ⟨by decide, interval_formula_high_count ⟨2.5, 3, 0, 0⟩ (by decide)⟩

/-- C2 counterexample: from a fresh item four consecutive correct outcomes
give the intervals 1, 3, 7, 20 — the fourth interval is 20, not the claimed
19, because the code raises the easiness factor to 2.9 before computing the
interval of the fourth call. -/
theorem fourth_interval_cex :
    reviewIntervals freshStats [true, true, true, true] = [1, 3, 7, 20] ∧
    (20 : ℤ) ≠ 19 := by
  constructor
  · norm_num [reviewIntervals, scheduleStep, freshStats, max_def]
  · decide

/-- C2 amended: from a fresh item three consecutive correct outcomes give the
intervals 1, 3, 7, and a fourth consecutive correct outcome gives the
interval floor of 7 times 2.9, that is 20, where 2.9 is the easiness value
after the +0.1 increment performed by that fourth call itself. -/
theorem fourth_interval_amended :
    reviewIntervals freshStats [true, true, true, true] = [1, 3, 7, 20] ∧
    (applyOutcomes freshStats [true, true, true, true]).easiness = 2.9 ∧
    (20 : ℤ) = ⌊(7 : ℚ) * 2.9 ^ (1 : ℕ)⌋ := by
  refine ⟨?_, ?_, ?_⟩
  · norm_num [reviewIntervals, scheduleStep, freshStats, max_def]
  · norm_num [applyOutcomes, scheduleStep, freshStats, max_def]
  · norm_num

/-- C9: a review request body with no correct field is processed exactly as
an explicit incorrect answer: streak reset to 0, interval 1, incorrect_count
incremented, correct_count kept, easiness lowered by 0.2 clamped at 1.3. -/
theorem missing_correct_is_incorrect (v : StoredStats) :
    reviewUpdate v none = reviewUpdate v (some false) ∧
    (reviewUpdate v none).1.review_count = 0 ∧
    (reviewUpdate v none).2 = 1 ∧
    (reviewUpdate v none).1.incorrect_count = (normalizeStats v).incorrect_count + 1 ∧
    (reviewUpdate v none).1.correct_count = (normalizeStats v).correct_count ∧
    (reviewUpdate v none).1.easiness = max 1.3 ((normalizeStats v).easiness - 0.2) :=
  ⟨rfl, rfl, rfl, rfl, rfl, rfl⟩

/-- C10: the stored statistics are normalized before scheduling: a NULL or
zero easiness factor becomes 2.5, any other stored easiness value is kept,
and NULL counts become 0. -/
theorem normalization_spec (v : StoredStats) :
    (v.easiness_factor = none → (normalizeStats v).easiness = 2.5) ∧
    (v.easiness_factor = some 0 → (normalizeStats v).easiness = 2.5) ∧
    (∀ e : ℚ, v.easiness_factor = some e → e ≠ 0 → (normalizeStats v).easiness = e) ∧
    (v.review_count = none → (normalizeStats v).review_count = 0) ∧
    (v.correct_count = none → (normalizeStats v).correct_count = 0) ∧
    (v.incorrect_count = none → (normalizeStats v).incorrect_count = 0) := by
  obtain ⟨ef, rc, cc, ic⟩ := v
  refine ⟨?_, ?_, ?_, ?_, ?_, ?_⟩
  · intro h; subst h; rfl
  · intro h; subst h; rfl
  · intro e h he; subst h; simp [normalizeStats, he]
  · intro h; subst h; rfl
  · intro h; subst h; rfl
  · intro h; subst h; rfl

/-- Witness for C10 on concrete stored rows. -/
theorem normalization_spec_witness :
    (normalizeStats ⟨none, none, none, none⟩).easiness = 2.5 ∧
    (normalizeStats ⟨some 0, some 4, some 5, some 6⟩).easiness = 2.5 ∧
    (normalizeStats ⟨some 3, none, none, none⟩).easiness = 3 ∧
    (normalizeStats ⟨none, none, none, none⟩).review_count = 0 ∧
    (normalizeStats ⟨none, none, none, none⟩).correct_count = 0 ∧
    (normalizeStats ⟨none, none, none, none⟩).incorrect_count = 0 :=
  ⟨(normalization_spec ⟨none, none, none, none⟩).1 rfl,
   (normalization_spec ⟨some 0, some 4, some 5, some 6⟩).2.1 rfl,
   (normalization_spec ⟨some 3, none, none, none⟩).2.2.1 3 rfl (by norm_num),
   (normalization_spec ⟨none, none, none, none⟩).2.2.2.1 rfl,
   (normalization_spec ⟨none, none, none, none⟩).2.2.2.2.1 rfl,
   (normalization_spec ⟨none, none, none, none⟩).2.2.2.2.2 rfl⟩

/-- A helper: an active subscription record is in particular qualifying. -/
theorem hasActive_imp_hasQualifying (subs : List SubRow) (uid : ℕ) (now : ℤ)
    (h : hasActiveSubscription subs uid = true) :
    hasQualifyingSubscription subs uid now = true := by
  simp only [hasActiveSubscription, List.any_eq_true, Bool.and_eq_true] at h
  obtain ⟨s, hs, hu, ha⟩ := h
  simp only [hasQualifyingSubscription, List.any_eq_true, Bool.and_eq_true,
    Bool.or_eq_true]
  exact ⟨s, hs, hu, Or.inl ha⟩

/-- C3 counterexample: user 1 holds a cancelled subscription that is
unexpired at time 50, hence qualifying per spec section 3, yet the save of
a sixth distinct word is denied with count 5 and the database is left
unchanged. -/
theorem cancelled_bypass_cex :
    hasQualifyingSubscription cancelledDB.subscriptions 1 50 = true ∧
    save_vocabulary cancelledDB sixthRequest 50 = (SaveResult.denied 5, cancelledDB) := by
  constructor
  · rfl
  · rfl

/-- C3 amended: only a subscription record with status active bypasses the
free tier check: a save by a user with an active subscription is always
allowed and performs the upsert, whatever the vocabulary count. -/
theorem active_subscription_bypass (db : DB) (q : SaveRequest) (now : ℤ)
    (hv : ¬(q.user_id = 0 ∨ q.word = "" ∨ q.translation = ""))
    (hs : hasActiveSubscription db.subscriptions q.user_id = true) :
    save_vocabulary db q now =
      (SaveResult.saved, { db with vocabulary := upsertVocabulary db.vocabulary q now }) := by
  simp [save_vocabulary, hv, hs]

/-- Witness for C3 amended: user 1 with an active subscription and five
words saves a sixth distinct word and it is upserted. -/
theorem active_subscription_bypass_witness :
    save_vocabulary activeDB sixthRequest 50 =
      (SaveResult.saved,
        { activeDB with vocabulary := upsertVocabulary activeDB.vocabulary sixthRequest 50 }) :=
  active_subscription_bypass activeDB sixthRequest 50 (by decide) (by decide)

/-- C4: a save by a user with no qualifying subscription is denied with the
current count and leaves the database unchanged exactly when the user has
at least 5 rows and no row exists at the requested word key; in every other
case the upsert is performed. -/
theorem free_tier_admission (db : DB) (q : SaveRequest) (now : ℤ)
    (hv : ¬(q.user_id = 0 ∨ q.word = "" ∨ q.translation = ""))
    (hq : hasQualifyingSubscription db.subscriptions q.user_id now = false) :
    (5 ≤ countVocabulary db.vocabulary q.user_id ∧ findExisting db.vocabulary q = none →
        save_vocabulary db q now =
          (SaveResult.denied (countVocabulary db.vocabulary q.user_id), db)) ∧
    (countVocabulary db.vocabulary q.user_id < 5 ∨ (findExisting db.vocabulary q).isSome →
        save_vocabulary db q now =
          (SaveResult.saved, { db with vocabulary := upsertVocabulary db.vocabulary q now })) := by
  have ha : hasActiveSubscription db.subscriptions q.user_id = false := by
    cases hh : hasActiveSubscription db.subscriptions q.user_id with
    | false => rfl
    | true => rw [hasActive_imp_hasQualifying db.subscriptions q.user_id now hh] at hq; cases hq
  constructor
  · rintro ⟨h5, he⟩
    rw [save_vocabulary, if_neg hv, if_pos ⟨ha, h5, he⟩]
  · intro h
    have hcond : ¬(hasActiveSubscription db.subscriptions q.user_id = false ∧
        5 ≤ countVocabulary db.vocabulary q.user_id ∧ findExisting db.vocabulary q = none) := by
      rcases h with h | h
      · rintro ⟨-, h5, -⟩; omega
      · rintro ⟨-, -, he⟩; rw [he] at h; cases h
    rw [save_vocabulary, if_neg hv, if_neg hcond]

/-- Witness for C4: user 1 with no subscription and five words is denied a
sixth distinct word with count 5 and no write occurs. -/
theorem free_tier_admission_witness :
    save_vocabulary freeDB sixthRequest 50 = (SaveResult.denied 5, freeDB) :=
  (free_tier_admission freeDB sixthRequest 50 (by decide) rfl).1 ⟨by decide, rfl⟩

/-- A helper: when no stored row matches the conflict key the upsert
appends a fresh row. -/
theorem upsert_no_match (rows : List VocabRow) (q : SaveRequest) (now : ℤ)
    (h : ∀ r ∈ rows, sameWordKey r q = false) :
    upsertVocabulary rows q now = rows ++ [newRow q now] := by
  induction rows with
  | nil => rfl
  | cons r rest ih =>
      have hr : sameWordKey r q = false := h r (List.mem_cons_self r rest)
      simp only [upsertVocabulary, hr, Bool.false_eq_true, if_false, List.cons_append,
        List.cons.injEq, true_and]
      exact ih fun x hx => h x (List.mem_cons_of_mem r hx)

/-- A helper: the upsert rewrites the first row matching the conflict key in
place, updating translation and learned_at only. -/
theorem upsert_match (q : SaveRequest) (now : ℤ) :
    ∀ (l1 : List VocabRow) (r : VocabRow) (l2 : List VocabRow),
      (∀ x ∈ l1, sameWordKey x q = false) → sameWordKey r q = true →
      upsertVocabulary (l1 ++ r :: l2) q now =
        l1 ++ { r with translation := q.translation, learned_at := now } :: l2 := by
  intro l1
  induction l1 with
  | nil =>
      intro r l2 _ hr
      simp [upsertVocabulary, hr]
  | cons x xs ih =>
      intro r l2 hl hr
      have hx : sameWordKey x q = false := hl x (List.mem_cons_self x xs)
      simp only [List.cons_append, upsertVocabulary, hx, Bool.false_eq_true, if_false,
        List.cons.injEq, true_and]
      exact ih r l2 (fun y hy => hl y (List.mem_cons_of_mem x hy)) hr

/-- C5 counterexample: a save that differs from the stored row only in
volume_number does not create a second row: the single stored row is
updated in place, because volume_number is not part of the conflict key. -/
theorem composite_key_cex :
    volRequest.volume_number ≠ volRow.volume_number ∧
    upsertVocabulary [volRow] volRequest 20 =
      [{ volRow with translation := "livre", learned_at := 20 }] := by
  constructor
  · decide
  · rfl

/-- C5 amended: storage keeps one row per (user, word, book, page,
position) tuple — volume_number is not part of the key. A save matching a
stored row on those five components updates that row in place (translation
and learned_at), and a save matching no stored row on them appends a
distinct new row. -/
theorem composite_key_upsert (rows : List VocabRow) (q : SaveRequest) (now : ℤ) :
    ((∀ r ∈ rows, sameWordKey r q = false) →
        upsertVocabulary rows q now = rows ++ [newRow q now]) ∧
    (∀ (l1 : List VocabRow) (r : VocabRow) (l2 : List VocabRow),
        rows = l1 ++ r :: l2 → (∀ x ∈ l1, sameWordKey x q = false) →
        sameWordKey r q = true →
        upsertVocabulary rows q now =
          l1 ++ { r with translation := q.translation, learned_at := now } :: l2) := by
  constructor
  · exact upsert_no_match rows q now
  · intro l1 r l2 hrows h1 h2
    rw [hrows]
    exact upsert_match q now l1 r l2 h1 h2

/-- Witness for C5 amended: re-saving the stored row at its exact key with
a new translation yields exactly one row carrying the new translation and
learned_at. -/
theorem composite_key_upsert_witness :
    upsertVocabulary [volRow] resaveRequest 30 =
      [{ volRow with translation := "nouveau", learned_at := 30 }] :=
  (composite_key_upsert [volRow] resaveRequest 30).2 [] volRow [] rfl
    (by intro x hx; cases hx) (by decide)

/-- C8: the due endpoint returns a permutation of exactly the rows of the
user that pass the optional book filter and have next_review_date at most
now, sorted ascending by next_review_date. -/
theorem due_query_spec (rows : List DueRow) (uid : ℕ) (f : Option ℤ) (now : ℤ) :
    List.Sorted dueOrder (get_due_vocabulary rows uid f now) ∧
    List.Perm (get_due_vocabulary rows uid f now) (rows.filter (isDue uid now f)) ∧
    ∀ r : DueRow, r ∈ get_due_vocabulary rows uid f now ↔
      r ∈ rows ∧ r.user_id = uid ∧ r.next_review_date ≤ now ∧ bookFilterOk f r = true := by
  refine ⟨List.sorted_insertionSort dueOrder _, List.perm_insertionSort dueOrder _, ?_⟩
  intro r
  rw [get_due_vocabulary, List.mem_insertionSort, List.mem_filter]
  simp [isDue, and_assoc]

end ReadArabic
